import Mathlib

/-
Shallow embedding of the crypto-signal-telegram core:
  - scripts/tradingview_scraper.py (market data gateway, indicator engine,
    signal engine, risk levels)
  - handlers/position_monitor.py (position and alert monitoring)
  - database.py (the monitoring loads: open positions, active alerts)
Python floats are modelled as exact rationals; Python's round(x, n)
(decimal rounding, ties to even) is modelled by pyRound.
-/

namespace Crypto

/-- Round a rational to an integer, ties going to the even integer
(the behaviour of Python's builtin round). -/
def roundHalfEven (x : ℚ) : ℤ :=
  let f := ⌊x⌋
  let r := x - f
  if r < 1/2 then f
  else if 1/2 < r then f + 1
  else if f % 2 = 0 then f else f + 1

/-- Python's round(x, n): round to n decimal places, ties to even. -/
def pyRound (x : ℚ) (n : ℕ) : ℚ :=
  (roundHalfEven (x * 10 ^ n) : ℚ) / 10 ^ n

/-- One OHLCV candle, as produced by _get_binance_klines /
_generate_mock_klines. -/
structure Kline where
  timestamp : ℚ
  openP : ℚ
  high : ℚ
  low : ℚ
  close : ℚ
  volume : ℚ
  deriving DecidableEq

/-- The price_position sub-dict of the indicator set. -/
structure PricePosition where
  above_sma20 : Bool
  above_sma50 : Bool
  above_ema20 : Bool
  above_ema50 : Bool
  deriving DecidableEq

/-- The dict returned by _calculate_technical_indicators. -/
structure IndicatorSet where
  rsi : ℚ
  sma_20 : ℚ
  sma_50 : ℚ
  ema_20 : ℚ
  ema_50 : ℚ
  macd : ℚ
  macd_signal : ℚ
  macd_histogram : ℚ
  bb_upper : ℚ
  bb_middle : ℚ
  bb_lower : ℚ
  trend_strength : ℚ
  price_position : PricePosition
  deriving DecidableEq

/-- Python's xs[-n:] on a list of rationals. -/
def lastN (l : List ℚ) (n : ℕ) : List ℚ := l.drop (l.length - n)

/-- TradingViewScraper._get_default_indicators. -/
def get_default_indicators : IndicatorSet :=
  { rsi := 50, sma_20 := 0, sma_50 := 0, ema_20 := 0, ema_50 := 0,
    macd := 0, macd_signal := 0, macd_histogram := 0,
    bb_upper := 0, bb_middle := 0, bb_lower := 0, trend_strength := 0,
    price_position :=
      { above_sma20 := false, above_sma50 := false,
        above_ema20 := false, above_ema50 := false } }

/-- TradingViewScraper._calculate_rsi.  Note: in the len < period + 1 branch
Python returns 50 before any division; in ℚ, division by zero yields 0,
which coincides with the try/except fallbacks of the source on the empty
list (they never fire for the inputs reaching this function). -/
def calculate_rsi (prices : List ℚ) (period : ℕ) : ℚ :=
  if prices.length < period + 1 then 50
  else
    let deltas := (prices.zip (prices.drop 1)).map (fun p => p.2 - p.1)
    let gains := deltas.map (fun d => if 0 < d then d else 0)
    let losses := deltas.map (fun d => if d < 0 then -d else 0)
    let avg_gain := (lastN gains period).sum / (period : ℚ)
    let avg_loss := (lastN losses period).sum / (period : ℚ)
    if avg_loss = 0 then 100
    else
      let rs := avg_gain / avg_loss
      pyRound (100 - 100 / (1 + rs)) 2

/-- TradingViewScraper._calculate_ema.  The len < period branch divides by
len; for the empty list Python raises and the except returns 0.0, which in
the ℚ model is again sum / 0 = 0. -/
def calculate_ema (prices : List ℚ) (period : ℕ) : ℚ :=
  if prices.length < period then prices.sum / (prices.length : ℚ)
  else
    let multiplier : ℚ := 2 / ((period : ℚ) + 1)
    let ema0 := (prices.take period).sum / (period : ℚ)
    let ema := (prices.drop period).foldl
      (fun ema price => price * multiplier + ema * (1 - multiplier)) ema0
    pyRound ema 4

/-- TradingViewScraper._calculate_macd. -/
def calculate_macd (prices : List ℚ) : ℚ × ℚ × ℚ :=
  if prices.length < 26 then (0, 0, 0)
  else
    let ema_12 := calculate_ema prices 12
    let ema_26 := calculate_ema prices 26
    let macd_line := ema_12 - ema_26
    let macd_values := (List.range (prices.length - 26)).map (fun j =>
      calculate_ema (prices.take (26 + j + 1)) 12
        - calculate_ema (prices.take (26 + j + 1)) 26)
    let macd_signal := if 9 ≤ macd_values.length then calculate_ema macd_values 9 else 0
    let macd_histogram := macd_line - macd_signal
    (pyRound macd_line 6, pyRound macd_signal 6, pyRound macd_histogram 6)

/-- TradingViewScraper._calculate_bollinger_bands.  The source takes the
square root of the population variance with float exponentiation; the model
is parametric in the square-root function sqrtF (only its value at the
variance actually reached matters for the claims). -/
def calculate_bollinger_bands (sqrtF : ℚ → ℚ) (prices : List ℚ)
    (period : ℕ) (std_dev : ℚ) : ℚ × ℚ × ℚ :=
  if prices.length < period then
    let avg := prices.sum / (prices.length : ℚ)
    (avg, avg, avg)
  else
    let sma := (lastN prices period).sum / (period : ℚ)
    let variance := ((lastN prices period).map (fun price => (price - sma) ^ 2)).sum / (period : ℚ)
    let std := sqrtF variance
    let bb_upper := sma + std * std_dev
    let bb_lower := sma - std * std_dev
    (pyRound bb_upper 4, pyRound sma 4, pyRound bb_lower 4)

/-- TradingViewScraper._calculate_trend_strength.  When older_avg is zero
Python raises on the division and the except returns 50; in ℚ the division
yields trend = 0 and hence the same 50. -/
def calculate_trend_strength (closes : List ℚ) : ℚ :=
  if closes.length < 20 then 50
  else
    let recent_closes := lastN closes 10
    let older_closes := (lastN closes 20).take 10
    let recent_avg := recent_closes.sum / (recent_closes.length : ℚ)
    let older_avg := older_closes.sum / (older_closes.length : ℚ)
    let trend := ((recent_avg - older_avg) / older_avg) * 100
    let strength := min 100 (max 0 (50 + trend * 10))
    pyRound strength 2

/-- TradingViewScraper._calculate_technical_indicators. -/
def calculate_technical_indicators (sqrtF : ℚ → ℚ) (klines : List Kline) : IndicatorSet :=
  if klines.length < 50 then get_default_indicators
  else
    let closes := klines.map Kline.close
    let rsi := calculate_rsi closes 14
    let sma_20 := (lastN closes 20).sum / 20
    let sma_50 :=
      if 50 ≤ closes.length then (lastN closes 50).sum / 50
      else closes.sum / closes.length
    let ema_20 := calculate_ema closes 20
    let ema_50 := calculate_ema closes 50
    let macd3 := calculate_macd closes
    let bb3 := calculate_bollinger_bands sqrtF closes 20 2
    let trend_strength := calculate_trend_strength closes
    let current_price := closes.getLast?.getD 0
    { rsi := rsi, sma_20 := sma_20, sma_50 := sma_50,
      ema_20 := ema_20, ema_50 := ema_50,
      macd := macd3.1, macd_signal := macd3.2.1, macd_histogram := macd3.2.2,
      bb_upper := bb3.1, bb_middle := bb3.2.1, bb_lower := bb3.2.2,
      trend_strength := trend_strength,
      price_position :=
        { above_sma20 := decide (sma_20 < current_price),
          above_sma50 := decide (sma_50 < current_price),
          above_ema20 := decide (ema_20 < current_price),
          above_ema50 := decide (ema_50 < current_price) } }

/-- The price sub-dict of a market-data snapshot. -/
structure MarketPrice where
  current : ℚ
  change : ℚ
  change_abs : ℚ
  high : ℚ
  low : ℚ
  openP : ℚ
  deriving DecidableEq

/-- A market-data snapshot as returned by get_market_data. -/
structure MarketData where
  symbol : String
  timeframe : String
  price : MarketPrice
  volume : ℚ
  indicators : IndicatorSet
  raw_klines : List Kline
  deriving DecidableEq

/-- The five checks of TechnicalAnalysis.calculate_signal_strength, in
source order (RSI, MACD, moving averages, Bollinger bands, trend): each
voting check appends (direction, weight) to the signals and
confidence_factors lists. -/
def signal_checks (data : MarketData) : List (String × ℚ) :=
  let indicators := data.indicators
  let current_price := data.price.current
  (if indicators.rsi < 30 then [("LONG", (0.8 : ℚ))]
   else if 70 < indicators.rsi then [("SHORT", 0.8)] else [])
  ++ (if indicators.macd_signal < indicators.macd ∧ 0 < indicators.macd_histogram then
        [("LONG", 0.7)]
      else if indicators.macd < indicators.macd_signal ∧ indicators.macd_histogram < 0 then
        [("SHORT", 0.7)]
      else [])
  ++ (if indicators.ema_20 < current_price ∧ indicators.ema_50 < indicators.ema_20 then
        [("LONG", 0.6)]
      else if current_price < indicators.ema_20 ∧ indicators.ema_20 < indicators.ema_50 then
        [("SHORT", 0.6)]
      else [])
  ++ (if indicators.bb_upper < current_price then [("SHORT", 0.5)]
      else if current_price < indicators.bb_lower then [("LONG", 0.5)]
      else [])
  ++ (if 70 < indicators.trend_strength then [("LONG", 0.4)]
      else if indicators.trend_strength < 30 then [("SHORT", 0.4)]
      else [])

/-- The dict returned by TechnicalAnalysis.calculate_risk_levels. -/
structure RiskLevels where
  take_profit : ℚ
  stop_loss : ℚ
  risk_reward_ratio : ℚ
  deriving DecidableEq

/-- The volatility proxy of calculate_risk_levels: abs(high - low), replaced
by 2 percent of the current price when it is zero. -/
def atr_est (data : MarketData) : ℚ :=
  let e := |data.price.high - data.price.low|
  if e = 0 then data.price.current * 0.02 else e

/-- TechnicalAnalysis.calculate_risk_levels. -/
def calculate_risk_levels (data : MarketData) (signal : String) : RiskLevels :=
  let current_price := data.price.current
  if current_price = 0 then { take_profit := 0, stop_loss := 0, risk_reward_ratio := 0 }
  else
    let atr_estimate := atr_est data
    let sl_tp : ℚ × ℚ :=
      if signal = "LONG" then
        (current_price - atr_estimate * 1.5, current_price + atr_estimate * 2.5)
      else if signal = "SHORT" then
        (current_price + atr_estimate * 1.5, current_price - atr_estimate * 2.5)
      else (current_price, current_price)
    let stop_loss := sl_tp.1
    let take_profit := sl_tp.2
    let risk := |current_price - stop_loss|
    let reward := |take_profit - current_price|
    let rrr := if 0 < risk then reward / risk else 0
    { take_profit := pyRound take_profit 4, stop_loss := pyRound stop_loss 4,
      risk_reward_ratio := pyRound rrr 2 }

/-- The dict returned by TechnicalAnalysis.calculate_signal_strength. -/
structure SignalResult where
  signal : String
  confidence : ℚ
  strength : ℕ
  take_profit : ℚ
  stop_loss : ℚ
  risk_reward_ratio : ℚ
  entry_price : ℚ
  deriving DecidableEq

/-- TechnicalAnalysis.calculate_signal_strength. -/
def calculate_signal_strength (data : MarketData) : SignalResult :=
  let votes := signal_checks data
  let signals := votes.map Prod.fst
  let confidence_factors := votes.map Prod.snd
  let long_signals := signals.count "LONG"
  let short_signals := signals.count "SHORT"
  let overall_signal :=
    if short_signals < long_signals then "LONG"
    else if long_signals < short_signals then "SHORT"
    else "NEUTRAL"
  let confidence : ℚ :=
    if short_signals < long_signals then
      if confidence_factors.length = 0 then 0
      else (confidence_factors.take long_signals).sum / (confidence_factors.length : ℚ)
    else if long_signals < short_signals then
      if confidence_factors.length = 0 then 0
      else (confidence_factors.take short_signals).sum / (confidence_factors.length : ℚ)
    else 0.3
  let risk_data := calculate_risk_levels data overall_signal
  { signal := overall_signal,
    confidence := pyRound (confidence * 100) 1,
    strength := (signals.filter (fun s => s = overall_signal)).length,
    take_profit := risk_data.take_profit,
    stop_loss := risk_data.stop_loss,
    risk_reward_ratio := risk_data.risk_reward_ratio,
    entry_price := data.price.current }

/-- A row of the positions table (database.py), as the dict the monitor
reads. -/
structure Position where
  id : ℕ
  user_id : ℕ
  symbol : String
  direction : String
  entry_price : ℚ
  take_profit : ℚ
  stop_loss : ℚ
  quantity : ℚ
  status : String
  current_price : ℚ
  pnl : ℚ
  pnl_percentage : ℚ
  deriving DecidableEq

/-- The observable effect of one evaluation of a position against a price:
either the position is closed (db update with the final status plus a
notification) or only its price and PnL are refreshed. -/
inductive PosOutcome where
  | closed : String → ℚ → ℚ → ℚ → PosOutcome
  | updated : ℚ → ℚ → ℚ → PosOutcome
  deriving DecidableEq

/-- PositionMonitor.close_position: final PnL and the persisted update,
closed status pnl_percentage carried in the outcome. -/
def close_position (position : Position) (current_price : ℚ) (status : String) : PosOutcome :=
  let pnl_percentage :=
    if position.direction = "LONG" then
      ((current_price - position.entry_price) / position.entry_price) * 100
    else
      ((position.entry_price - current_price) / position.entry_price) * 100
  let pnl := (pnl_percentage / 100) * (position.quantity * position.entry_price)
  .closed status current_price pnl pnl_percentage

/-- PositionMonitor.check_position_levels. -/
def check_position_levels (position : Position) (current_price : ℚ) : PosOutcome :=
  if position.direction = "LONG" then
    let pnl_percentage := ((current_price - position.entry_price) / position.entry_price) * 100
    if position.take_profit ≤ current_price then close_position position current_price "TP_HIT"
    else if current_price ≤ position.stop_loss then close_position position current_price "SL_HIT"
    else .updated current_price
      ((pnl_percentage / 100) * (position.quantity * position.entry_price)) pnl_percentage
  else
    let pnl_percentage := ((position.entry_price - current_price) / position.entry_price) * 100
    if current_price ≤ position.take_profit then close_position position current_price "TP_HIT"
    else if position.stop_loss ≤ current_price then close_position position current_price "SL_HIT"
    else .updated current_price
      ((pnl_percentage / 100) * (position.quantity * position.entry_price)) pnl_percentage

/-- A row of the alerts table (database.py), as the dict the monitor
reads. -/
structure Alert where
  id : ℕ
  user_id : ℕ
  symbol : String
  condition : String
  target_price : ℚ
  current_price : ℚ
  is_triggered : Bool
  deriving DecidableEq

/-- PositionMonitor.check_alert_condition. -/
def check_alert_condition (alert : Alert) (current_price : ℚ) : Bool :=
  if alert.condition = "ABOVE" then decide (alert.target_price ≤ current_price)
  else if alert.condition = "BELOW" then decide (current_price ≤ alert.target_price)
  else false

/-- DatabaseManager.trigger_alert: the persisted update (is_triggered = 1
and the trigger price). -/
def trigger_alert (a : Alert) (current_price : ℚ) : Alert :=
  { a with is_triggered := true, current_price := current_price }

/-- DatabaseManager.get_all_open_positions: SELECT where status = open. -/
def get_all_open_positions (positions : List Position) : List Position :=
  positions.filter (fun p => p.status = "open")

/-- DatabaseManager.get_all_active_alerts: SELECT where is_triggered = 0. -/
def get_all_active_alerts (alerts : List Alert) : List Alert :=
  alerts.filter (fun a => a.is_triggered = false)

/-- The new database row after one evaluated position's update is
persisted. -/
def applyOutcome (p : Position) : PosOutcome → Position
  | .closed st cp pnl pct =>
    { p with status := st, current_price := cp, pnl := pnl, pnl_percentage := pct }
  | .updated cp pnl pct =>
    { p with current_price := cp, pnl := pnl, pnl_percentage := pct }

/-- Whether an outcome sends a closure notification. -/
def outcomeNotifies : PosOutcome → Bool
  | .closed _ _ _ _ => true
  | .updated _ _ _ => false

/-- One PositionMonitor.check_positions cycle over the whole positions
table: only rows loaded by get_all_open_positions are evaluated (against
the per-symbol snapshot price priceOf), every other row is untouched.
Returns the new table and the ids of the positions whose closure was
notified. -/
def check_positions_cycle (priceOf : String → ℚ) (db : List Position) :
    List Position × List ℕ :=
  (db.map (fun p =>
     if p.status = "open" then applyOutcome p (check_position_levels p (priceOf p.symbol))
     else p),
   (get_all_open_positions db).filterMap (fun p =>
     if outcomeNotifies (check_position_levels p (priceOf p.symbol)) then some p.id else none))

/-- One alert evaluation inside PositionMonitor.check_price_alerts: the
new row and whether a notification was sent. -/
def evalActiveAlert (a : Alert) (price : ℚ) : Alert × Bool :=
  if check_alert_condition a price then (trigger_alert a price, true) else (a, false)

/-- One PositionMonitor.check_price_alerts cycle over the whole alerts
table: only rows loaded by get_all_active_alerts are evaluated, every
other row is untouched. -/
def check_alerts_cycle (priceOf : String → ℚ) (db : List Alert) :
    List Alert × List ℕ :=
  (db.map (fun a =>
     if a.is_triggered = false then (evalActiveAlert a (priceOf a.symbol)).1 else a),
   (get_all_active_alerts db).filterMap (fun a =>
     if (evalActiveAlert a (priceOf a.symbol)).2 then some a.id else none))

/-- The trace of one retried fetch: the attempt index that got HTTP 200 (or
none), how many requests were made, and the sleep durations in seconds. -/
structure RetryTrace where
  result : Option ℕ
  attempts : ℕ
  sleeps : List ℕ
  deriving DecidableEq

/-- The retry loop of TradingViewScraper._get_binance_24hr_ticker:
for attempt in range(max_retries), given the HTTP status of each attempt. -/
def ticker_retry_go (responses : ℕ → ℕ) (max_retries : ℕ) : List ℕ → RetryTrace
  | [] => { result := none, attempts := 0, sleeps := [] }
  | attempt :: rest =>
    let status := responses attempt
    if status = 200 then { result := some attempt, attempts := 1, sleeps := [] }
    else if status = 429 then
      let t := ticker_retry_go responses max_retries rest
      { result := t.result, attempts := t.attempts + 1, sleeps := 2 ^ attempt :: t.sleeps }
    else
      if attempt < max_retries - 1 then
        let t := ticker_retry_go responses max_retries rest
        { result := t.result, attempts := t.attempts + 1, sleeps := 1 :: t.sleeps }
      else { result := none, attempts := 1, sleeps := [] }

/-- TradingViewScraper._get_binance_24hr_ticker with max_retries = 3. -/
def get_binance_24hr_ticker (responses : ℕ → ℕ) : RetryTrace :=
  ticker_retry_go responses 3 (List.range 3)

/-- The identical retry loop of TradingViewScraper._get_binance_klines. -/
def klines_retry_go (responses : ℕ → ℕ) (max_retries : ℕ) : List ℕ → RetryTrace
  | [] => { result := none, attempts := 0, sleeps := [] }
  | attempt :: rest =>
    let status := responses attempt
    if status = 200 then { result := some attempt, attempts := 1, sleeps := [] }
    else if status = 429 then
      let t := klines_retry_go responses max_retries rest
      { result := t.result, attempts := t.attempts + 1, sleeps := 2 ^ attempt :: t.sleeps }
    else
      if attempt < max_retries - 1 then
        let t := klines_retry_go responses max_retries rest
        { result := t.result, attempts := t.attempts + 1, sleeps := 1 :: t.sleeps }
      else { result := none, attempts := 1, sleeps := [] }

/-- TradingViewScraper._get_binance_klines with max_retries = 3. -/
def get_binance_klines (responses : ℕ → ℕ) : RetryTrace :=
  klines_retry_go responses 3 (List.range 3)

/-- The fields of a Binance 24hr ticker response that get_market_data
reads. -/
structure TickerData where
  lastPrice : ℚ
  priceChangePercent : ℚ
  priceChange : ℚ
  highPrice : ℚ
  lowPrice : ℚ
  openPrice : ℚ
  volume : ℚ
  deriving DecidableEq

/-- The dict _get_coingecko_price returns on success. -/
structure GeckoData where
  current_price : ℚ
  price_change_percentage_24h : ℚ
  total_volume : ℚ
  high_24h : ℚ
  low_24h : ℚ
  deriving DecidableEq

/-- The environment of one get_market_data call: the outcome of each
upstream interaction (after its retries) and the opaque Python hash
functions.  hashStr s models hash(s); hashIdx i and hashVol i model the
per-index hashes inside _generate_mock_klines. -/
structure NetEnv where
  ticker : Option TickerData
  gecko : Option GeckoData
  klines : Option (List Kline)
  hashStr : String → ℤ
  hashIdx : ℕ → ℤ
  hashVol : ℕ → ℤ
  now : ℚ

/-- The static symbol-to-CoinGecko-id table of _get_coingecko_price. -/
def coingecko_symbol_map : List (String × String) :=
  [("BTCUSDT", "bitcoin"), ("ETHUSDT", "ethereum"), ("BNBUSDT", "binancecoin"),
   ("ADAUSDT", "cardano"), ("XRPUSDT", "ripple"), ("SOLUSDT", "solana"),
   ("DOTUSDT", "polkadot"), ("DOGEUSDT", "dogecoin"), ("AVAXUSDT", "avalanche-2"),
   ("MATICUSDT", "matic-network"), ("LINKUSDT", "chainlink"), ("LTCUSDT", "litecoin")]

/-- TradingViewScraper._get_coingecko_price: unmapped symbols are skipped;
for mapped ones the environment supplies the (possibly failed) parsed
response. -/
def get_coingecko_price (env : NetEnv) (symbol : String) : Option GeckoData :=
  match coingecko_symbol_map.lookup symbol with
  | none => none
  | some _ => env.gecko

/-- The static base-price table of _generate_mock_data. -/
def base_prices : List (String × ℚ) :=
  [("BTCUSDT", 116000), ("ETHUSDT", 3800), ("BNBUSDT", 680), ("ADAUSDT", 1.20),
   ("XRPUSDT", 2.80), ("SOLUSDT", 220), ("DOTUSDT", 12.5), ("DOGEUSDT", 0.42),
   ("AVAXUSDT", 68), ("MATICUSDT", 0.85), ("LINKUSDT", 28), ("LTCUSDT", 140)]

/-- The loop body of _generate_mock_klines over the remaining indices,
carrying the walking price. -/
def mock_klines_go (env : NetEnv) (count : ℕ) : List ℕ → ℚ → List Kline
  | [], _ => []
  | i :: rest, price =>
    let change : ℚ := (((env.hashIdx i).emod 200 - 100 : ℤ) : ℚ) / 10000
    let price2 := price * (1 + change)
    let high := price2 * (1 + |change| * 2)
    let low := price2 * (1 - |change| * 2)
    { timestamp := env.now - ((count : ℚ) - (i : ℚ)) * 3600,
      openP := price2 * 0.999, high := high, low := low, close := price2,
      volume := 1000000 + (((env.hashVol i).emod 500000 : ℤ) : ℚ) }
      :: mock_klines_go env count rest price2

/-- TradingViewScraper._generate_mock_klines. -/
def generate_mock_klines (env : NetEnv) (current_price : ℚ) (count : ℕ) : List Kline :=
  mock_klines_go env count (List.range count) (current_price * 0.95)

/-- TradingViewScraper._generate_mock_data. -/
def generate_mock_data (env : NetEnv) (sqrtF : ℚ → ℚ) (symbol timeframe : String) :
    MarketData :=
  let base_price := (base_prices.lookup symbol).getD 1000
  let price_variation : ℚ :=
    0.9 + 0.2 * (((env.hashStr (symbol ++ timeframe)).emod 100 : ℤ) : ℚ) / 100
  let current_price := base_price * price_variation
  let mock_klines := generate_mock_klines env current_price 100
  let technical_data := calculate_technical_indicators sqrtF mock_klines
  let change_pct : ℚ := -10 + 20 * (((env.hashStr symbol).emod 100 : ℤ) : ℚ) / 100
  { symbol := symbol, timeframe := timeframe,
    price :=
      { current := current_price, change := change_pct,
        change_abs := current_price * (change_pct / 100),
        high := current_price * 1.08, low := current_price * 0.92,
        openP := current_price * (1 - change_pct / 100) },
    volume := 50000 + (((env.hashStr symbol).emod 1000000 : ℤ) : ℚ),
    indicators := technical_data,
    raw_klines := mock_klines.drop (mock_klines.length - 20) }

/-- TradingViewScraper.get_market_data: primary ticker, CoinGecko
fallback, mock data when both fail; klines independently fetched and
mocked (anchored to the resolved price) when absent. -/
def get_market_data (env : NetEnv) (sqrtF : ℚ → ℚ) (symbol timeframe : String) :
    MarketData :=
  let price_data : Option (TickerData ⊕ GeckoData) :=
    match env.ticker with
    | some t => some (.inl t)
    | none => (get_coingecko_price env symbol).map .inr
  match price_data with
  | none => generate_mock_data env sqrtF symbol timeframe
  | some pd =>
    let resolved_price :=
      match pd with
      | .inl t => t.lastPrice
      | .inr g => g.current_price
    let kline_data :=
      match env.klines with
      | some k => k
      | none => generate_mock_klines env resolved_price 100
    let technical_data := calculate_technical_indicators sqrtF kline_data
    match pd with
    | .inl t =>
      { symbol := symbol, timeframe := timeframe,
        price :=
          { current := t.lastPrice, change := t.priceChangePercent,
            change_abs := t.priceChange, high := t.highPrice, low := t.lowPrice,
            openP := t.openPrice },
        volume := t.volume, indicators := technical_data,
        raw_klines := kline_data.drop (kline_data.length - 20) }
    | .inr g =>
      { symbol := symbol, timeframe := timeframe,
        price :=
          { current := g.current_price, change := g.price_change_percentage_24h,
            change_abs := g.current_price * (g.price_change_percentage_24h / 100),
            high := g.high_24h, low := g.low_24h,
            openP := g.current_price * (1 - g.price_change_percentage_24h / 100) },
        volume := g.total_volume, indicators := technical_data,
        raw_klines := kline_data.drop (kline_data.length - 20) }

/-- A concrete snapshot on which the five checks vote SHORT (RSI 80), LONG
(MACD 1 above signal 0 with positive histogram) and LONG (price 60 above
EMA20 50 above EMA50 40), with the Bollinger and trend checks silent. -/
def c1Data : MarketData :=
  { symbol := "BTCUSDT", timeframe := "1h",
    price := { current := 60, change := 0, change_abs := 0, high := 61, low := 59,
               openP := 60 },
    volume := 0,
    indicators :=
      { rsi := 80, sma_20 := 0, sma_50 := 0, ema_20 := 50, ema_50 := 40,
        macd := 1, macd_signal := 0, macd_histogram := 1,
        bb_upper := 100, bb_middle := 50, bb_lower := 1, trend_strength := 50,
        price_position := { above_sma20 := false, above_sma50 := false,
                            above_ema20 := false, above_ema50 := false } },
    raw_klines := [] }

/-- A concrete snapshot with price 100 and 24h range 98 to 102. -/
def c4Data : MarketData :=
  { symbol := "BTCUSDT", timeframe := "1h",
    price := { current := 100, change := 0, change_abs := 0, high := 102, low := 98,
               openP := 100 },
    volume := 0, indicators := get_default_indicators, raw_klines := [] }

/-- A concrete snapshot whose price 1/100000 is small enough for the
4-decimal rounding of the risk levels to swallow the whole ATR margin. -/
def c4TinyData : MarketData :=
  { symbol := "TINYUSDT", timeframe := "1h",
    price := { current := 1/100000, change := 0, change_abs := 0, high := 1/100000,
               low := 1/100000, openP := 1/100000 },
    volume := 0, indicators := get_default_indicators, raw_klines := [] }

/-- A flat candle at price 1. -/
def flatKline1 : Kline :=
  { timestamp := 0, openP := 1, high := 1, low := 1, close := 1, volume := 0 }

/-- A flat candle at price 3/25000 = 0.00012, which does not survive
rounding to 4 decimal places. -/
def c5Flat : Kline :=
  { timestamp := 0, openP := 3/25000, high := 3/25000, low := 3/25000,
    close := 3/25000, volume := 0 }

/-- Helper: the retry loop makes at most one request per loop index. -/
theorem ticker_retry_go_attempts_le (responses : ℕ → ℕ) (m : ℕ) (l : List ℕ) :
    (ticker_retry_go responses m l).attempts ≤ l.length := by
  induction l with
  | nil => simp [ticker_retry_go]
  | cons a rest ih =>
    simp only [ticker_retry_go, List.length_cons]
    split
    · simp
    · split
      · simpa using Nat.succ_le_succ ih
      · split
        · simpa using Nat.succ_le_succ ih
        · simp

/-- C2 (amended): for every candle series with fewer than 50 bars the
indicator engine returns exactly the source's default IndicatorSet:
RSI 50, trend-strength 0, all moving averages, MACD values and Bollinger
bands 0, and all price-above flags false. -/
theorem C2_short_series_defaults (sqrtF : ℚ → ℚ) (klines : List Kline)
    (h : klines.length < 50) :
    calculate_technical_indicators sqrtF klines =
      { rsi := 50, sma_20 := 0, sma_50 := 0, ema_20 := 0, ema_50 := 0,
        macd := 0, macd_signal := 0, macd_histogram := 0,
        bb_upper := 0, bb_middle := 0, bb_lower := 0, trend_strength := 0,
        price_position := { above_sma20 := false, above_sma50 := false,
                            above_ema20 := false, above_ema50 := false } } := by
  unfold calculate_technical_indicators
  rw [if_pos h]
  rfl

/-- C2 witness: the empty series gets the default IndicatorSet. -/
theorem C2_short_series_defaults_witness :
    calculate_technical_indicators (fun _ => 0) [] =
      { rsi := 50, sma_20 := 0, sma_50 := 0, ema_20 := 0, ema_50 := 0,
        macd := 0, macd_signal := 0, macd_histogram := 0,
        bb_upper := 0, bb_middle := 0, bb_lower := 0, trend_strength := 0,
        price_position := { above_sma20 := false, above_sma50 := false,
                            above_ema20 := false, above_ema50 := false } } :=
  C2_short_series_defaults (fun _ => 0) [] (by norm_num)

/-- C2 counterexample: the default IndicatorSet carries trend-strength 0,
not the claimed 50. -/
theorem C2_default_trend_not_50 :
    ([] : List Kline).length < 50 ∧
    (calculate_technical_indicators (fun _ => 0) []).trend_strength ≠ 50 := by
  constructor
  · norm_num
  · norm_num [calculate_technical_indicators, get_default_indicators]

/-- C3 (amended): the ticker fetch makes at most 3 attempts; an immediate
200 means one attempt; three 429 responses give backoff sleeps of 1, 2 and
4 seconds and failure; three other non-2xx responses give two 1-second
retry sleeps (three attempts, two retries, not one) and failure; the kline
fetch runs the identical policy. -/
theorem C3_retry_policy (responses : ℕ → ℕ) :
    (get_binance_24hr_ticker responses).attempts ≤ 3 ∧
    (responses 0 = 200 →
      get_binance_24hr_ticker responses = { result := some 0, attempts := 1, sleeps := [] }) ∧
    ((∀ i, i < 3 → responses i = 429) →
      get_binance_24hr_ticker responses =
        { result := none, attempts := 3, sleeps := [1, 2, 4] }) ∧
    ((∀ i, i < 3 → responses i ≠ 200 ∧ responses i ≠ 429) →
      get_binance_24hr_ticker responses =
        { result := none, attempts := 3, sleeps := [1, 1] }) ∧
    (∀ l, klines_retry_go responses 3 l = ticker_retry_go responses 3 l) := by
  have hrange : List.range 3 = [0, 1, 2] := by rfl
  refine ⟨?_, ?_, ?_, ?_, ?_⟩
  · simpa [get_binance_24hr_ticker, List.length_range] using
      ticker_retry_go_attempts_le responses 3 (List.range 3)
  · intro h0
    simp [get_binance_24hr_ticker, hrange, ticker_retry_go, h0]
  · intro h
    have h0 := h 0 (by omega)
    have h1 := h 1 (by omega)
    have h2 := h 2 (by omega)
    simp [get_binance_24hr_ticker, hrange, ticker_retry_go, h0, h1, h2]
  · intro h
    have h0 := h 0 (by omega)
    have h1 := h 1 (by omega)
    have h2 := h 2 (by omega)
    simp [get_binance_24hr_ticker, hrange, ticker_retry_go, h0.1, h0.2, h1.1, h1.2,
      h2.1, h2.2]
  · intro l
    induction l with
    | nil => rfl
    | cons a rest ih => simp only [ticker_retry_go, klines_retry_go, ih]

/-- C3 counterexample: with every response a 500, the ticker fetch makes 3
attempts, not the 2 that "retry once then give up" would give. -/
theorem C3_three_attempts_on_500 :
    (get_binance_24hr_ticker (fun _ => 500)).attempts = 3 ∧
    (get_binance_24hr_ticker (fun _ => 500)).attempts ≠ 2 := by
  constructor <;> decide

/-- C6: a LONG position whose price reached take-profit closes as TP_HIT
with PnL% = (current - entry) / entry * 100, even when the stop-loss
threshold holds at the same time (take-profit is checked first); a SHORT
position symmetrically uses PnL% = (entry - current) / entry * 100; and the
concrete scenario entry 67500 / TP 70000 / SL 65000 fed 70200 closes as
TP_HIT with PnL% = 4. -/
theorem C6_tp_checked_before_sl (position : Position) (price : ℚ) :
    (position.direction = "LONG" → position.take_profit ≤ price →
      check_position_levels position price =
        .closed "TP_HIT" price
          ((((price - position.entry_price) / position.entry_price) * 100 / 100) *
            (position.quantity * position.entry_price))
          (((price - position.entry_price) / position.entry_price) * 100)) ∧
    (position.direction = "SHORT" → price ≤ position.take_profit →
      check_position_levels position price =
        .closed "TP_HIT" price
          ((((position.entry_price - price) / position.entry_price) * 100 / 100) *
            (position.quantity * position.entry_price))
          (((position.entry_price - price) / position.entry_price) * 100)) ∧
    check_position_levels
      { id := 1, user_id := 1, symbol := "BTCUSDT", direction := "LONG",
        entry_price := 67500, take_profit := 70000, stop_loss := 65000,
        quantity := 1, status := "open", current_price := 0, pnl := 0,
        pnl_percentage := 0 } 70200 =
      .closed "TP_HIT" 70200 2700 4 := by
  refine ⟨?_, ?_, ?_⟩
  · intro hdir htp
    simp [check_position_levels, close_position, hdir, htp]
  · intro hdir htp
    simp [check_position_levels, close_position, hdir, htp]
  · norm_num [check_position_levels, close_position]

/-- C7: an ABOVE alert triggers exactly when current price is at least the
target, a BELOW alert exactly when it is at most the target (both
boundaries inclusive), and the concrete ABOVE alert at target 70000 fires
at price exactly 70000. -/
theorem C7_alert_condition_inclusive (alert : Alert) (price : ℚ) :
    (alert.condition = "ABOVE" →
      (check_alert_condition alert price = true ↔ alert.target_price ≤ price)) ∧
    (alert.condition = "BELOW" →
      (check_alert_condition alert price = true ↔ price ≤ alert.target_price)) ∧
    check_alert_condition
      { id := 1, user_id := 1, symbol := "BTCUSDT", condition := "ABOVE",
        target_price := 70000, current_price := 0, is_triggered := false }
      70000 = true := by
  refine ⟨?_, ?_, ?_⟩
  · intro h
    simp [check_alert_condition, h]
  · intro h
    simp [check_alert_condition, h]
  · norm_num [check_alert_condition]

/-- C10: an alert whose condition is neither ABOVE nor BELOW never
satisfies check_alert_condition, so its evaluation leaves it untouched and
sends nothing. -/
theorem C10_other_conditions_never_fire (alert : Alert) (price : ℚ)
    (h1 : alert.condition ≠ "ABOVE") (h2 : alert.condition ≠ "BELOW") :
    check_alert_condition alert price = false ∧
    evalActiveAlert alert price = (alert, false) := by
  have hc : check_alert_condition alert price = false := by
    simp [check_alert_condition, h1, h2]
  exact ⟨hc, by simp [evalActiveAlert, hc]⟩

/-- C10 witness: a concrete alert with condition EQUALS never fires. -/
theorem C10_other_conditions_never_fire_witness :
    check_alert_condition
      { id := 1, user_id := 1, symbol := "BTCUSDT", condition := "EQUALS",
        target_price := 70000, current_price := 0, is_triggered := false }
      80000 = false ∧
    evalActiveAlert
      { id := 1, user_id := 1, symbol := "BTCUSDT", condition := "EQUALS",
        target_price := 70000, current_price := 0, is_triggered := false }
      80000 =
      ({ id := 1, user_id := 1, symbol := "BTCUSDT", condition := "EQUALS",
         target_price := 70000, current_price := 0, is_triggered := false }, false) :=
  C10_other_conditions_never_fire _ _ (by decide) (by decide)

/-- C9: the per-cycle loads filter on status = open / is_triggered = 0, so
a monitoring cycle evaluates only open positions and untriggered alerts;
every other row is mapped to itself (a terminal status or triggered flag is
never reverted) and every notification id comes from an open position or an
untriggered alert (no second notification for terminal entities). -/
theorem C9_terminal_rows_are_noops (priceOf : String → ℚ)
    (pdb : List Position) (adb : List Alert) :
    (∀ p ∈ get_all_open_positions pdb, p.status = "open") ∧
    (∀ a ∈ get_all_active_alerts adb, a.is_triggered = false) ∧
    List.Forall₂ (fun p q => p.status ≠ "open" → q = p) pdb
      (check_positions_cycle priceOf pdb).1 ∧
    (∀ n ∈ (check_positions_cycle priceOf pdb).2,
      ∃ p, p ∈ pdb ∧ p.status = "open" ∧ n = p.id) ∧
    List.Forall₂ (fun a b => a.is_triggered = true → b = a) adb
      (check_alerts_cycle priceOf adb).1 ∧
    (∀ n ∈ (check_alerts_cycle priceOf adb).2,
      ∃ a, a ∈ adb ∧ a.is_triggered = false ∧ n = a.id) := by
  refine ⟨?_, ?_, ?_, ?_, ?_, ?_⟩
  · intro p hp
    exact (by simpa [get_all_open_positions, List.mem_filter] using hp :
      p ∈ pdb ∧ p.status = "open").2
  · intro a ha
    exact (by simpa [get_all_active_alerts, List.mem_filter] using ha :
      a ∈ adb ∧ a.is_triggered = false).2
  · have : ∀ l : List Position, List.Forall₂ (fun p q => p.status ≠ "open" → q = p) l
        (l.map (fun p =>
          if p.status = "open" then applyOutcome p (check_position_levels p (priceOf p.symbol))
          else p)) := by
      intro l
      induction l with
      | nil => simp
      | cons p rest ih =>
        refine List.Forall₂.cons ?_ ih
        intro h
        simp [h]
    simpa [check_positions_cycle] using this pdb
  · intro n hn
    simp only [check_positions_cycle, List.mem_filterMap] at hn
    obtain ⟨p, hp, heq⟩ := hn
    have hpm := List.mem_filter.mp hp
    refine ⟨p, hpm.1, by simpa using hpm.2, ?_⟩
    by_cases hb : outcomeNotifies (check_position_levels p (priceOf p.symbol))
    · rw [if_pos hb] at heq
      exact (Option.some_inj.mp heq).symm
    · rw [if_neg hb] at heq
      exact absurd heq (by simp)
  · have : ∀ l : List Alert, List.Forall₂ (fun a b => a.is_triggered = true → b = a) l
        (l.map (fun a =>
          if a.is_triggered = false then (evalActiveAlert a (priceOf a.symbol)).1 else a)) := by
      intro l
      induction l with
      | nil => simp
      | cons a rest ih =>
        refine List.Forall₂.cons ?_ ih
        intro h
        simp [h]
    simpa [check_alerts_cycle] using this adb
  · intro n hn
    simp only [check_alerts_cycle, List.mem_filterMap] at hn
    obtain ⟨a, ha, heq⟩ := hn
    have ham := List.mem_filter.mp ha
    refine ⟨a, ham.1, by simpa using ham.2, ?_⟩
    by_cases hb : (evalActiveAlert a (priceOf a.symbol)).2 = true
    · rw [if_pos hb] at heq
      exact (Option.some_inj.mp heq).symm
    · rw [if_neg hb] at heq
      exact absurd heq (by simp)

/-- C1 (amended): on a non-NEUTRAL outcome the confidence is the sum of the
FIRST k weights of the votes in check order (k the number of winning-
direction votes) divided by the number of all votes, as a percentage
rounded to one decimal; the winning direction is the strict majority; a
tie or no votes gives NEUTRAL with fixed confidence 30. -/
theorem C1_confidence_arithmetic (data : MarketData) :
    (((signal_checks data).map Prod.fst).count "SHORT" <
        ((signal_checks data).map Prod.fst).count "LONG" →
      (calculate_signal_strength data).signal = "LONG" ∧
      (calculate_signal_strength data).confidence =
        pyRound ((((signal_checks data).map Prod.snd).take
            (((signal_checks data).map Prod.fst).count "LONG")).sum /
          ((signal_checks data).length : ℚ) * 100) 1) ∧
    (((signal_checks data).map Prod.fst).count "LONG" <
        ((signal_checks data).map Prod.fst).count "SHORT" →
      (calculate_signal_strength data).signal = "SHORT" ∧
      (calculate_signal_strength data).confidence =
        pyRound ((((signal_checks data).map Prod.snd).take
            (((signal_checks data).map Prod.fst).count "SHORT")).sum /
          ((signal_checks data).length : ℚ) * 100) 1) ∧
    (((signal_checks data).map Prod.fst).count "LONG" =
        ((signal_checks data).map Prod.fst).count "SHORT" →
      (calculate_signal_strength data).signal = "NEUTRAL" ∧
      (calculate_signal_strength data).confidence = 30) := by
  have hlen : ((signal_checks data).map Prod.snd).length = (signal_checks data).length :=
    List.length_map _ _
  have hlenf : ((signal_checks data).map Prod.fst).length = (signal_checks data).length :=
    List.length_map _ _
  refine ⟨?_, ?_, ?_⟩
  · intro h
    have hne : ¬ ((signal_checks data).map Prod.snd).length = 0 := by
      intro h0
      have : (signal_checks data).length = 0 := by rw [← hlen]; exact h0
      have hf : ((signal_checks data).map Prod.fst).length = 0 := by rw [hlenf]; exact this
      rw [List.length_eq_zero] at hf
      rw [hf] at h
      simp at h
    constructor
    · simp only [calculate_signal_strength]
      rw [if_pos h]
    · simp only [calculate_signal_strength]
      rw [if_pos h, if_neg hne, hlen]
  · intro h
    have hnlt : ¬ (((signal_checks data).map Prod.fst).count "SHORT" <
        ((signal_checks data).map Prod.fst).count "LONG") := by omega
    have hne : ¬ ((signal_checks data).map Prod.snd).length = 0 := by
      intro h0
      have : (signal_checks data).length = 0 := by rw [← hlen]; exact h0
      have hf : ((signal_checks data).map Prod.fst).length = 0 := by rw [hlenf]; exact this
      rw [List.length_eq_zero] at hf
      rw [hf] at h
      simp at h
    constructor
    · simp only [calculate_signal_strength]
      rw [if_neg hnlt, if_pos h]
    · simp only [calculate_signal_strength]
      rw [if_neg hnlt, if_pos h, if_neg hne, hlen]
  · intro h
    have h1 : ¬ (((signal_checks data).map Prod.fst).count "SHORT" <
        ((signal_checks data).map Prod.fst).count "LONG") := by omega
    have h2 : ¬ (((signal_checks data).map Prod.fst).count "LONG" <
        ((signal_checks data).map Prod.fst).count "SHORT") := by omega
    constructor
    · simp only [calculate_signal_strength]
      rw [if_neg h1, if_neg h2]
    · simp only [calculate_signal_strength]
      rw [if_neg h1, if_neg h2]
      norm_num [pyRound, roundHalfEven]

/-- C1 counterexample: on c1Data the winner is LONG with votes SHORT 0.8,
LONG 0.7, LONG 0.6; the source computes confidence (0.8 + 0.7) / 3 = 50
percent, while the sum of the winning direction's weights over all voting
checks is (0.7 + 0.6) / 3 = 43.3 percent. -/
theorem C1_confidence_not_winning_weights :
    (calculate_signal_strength c1Data).signal = "LONG" ∧
    (calculate_signal_strength c1Data).confidence = 50 ∧
    pyRound ((((signal_checks c1Data).filter (fun v => v.1 = "LONG")).map Prod.snd).sum /
        ((signal_checks c1Data).length : ℚ) * 100) 1 = 433/10 ∧
    (50 : ℚ) ≠ 433/10 := by
  have hchecks : signal_checks c1Data = [("SHORT", 4/5), ("LONG", 7/10), ("LONG", 3/5)] := by
    norm_num [signal_checks, c1Data]
  have hfst : List.map Prod.fst [(("SHORT" : String), (4 : ℚ)/5), ("LONG", 7/10), ("LONG", 3/5)] =
      ["SHORT", "LONG", "LONG"] := rfl
  have hsnd : List.map Prod.snd [(("SHORT" : String), (4 : ℚ)/5), ("LONG", 7/10), ("LONG", 3/5)] =
      [4/5, 7/10, 3/5] := rfl
  have hcL : List.count "LONG" ["SHORT", "LONG", "LONG"] = 2 := by decide
  have hcS : List.count "SHORT" ["SHORT", "LONG", "LONG"] = 1 := by decide
  have htake : List.take 2 [(4 : ℚ)/5, 7/10, 3/5] = [4/5, 7/10] := rfl
  have hfilter : List.filter (fun v => v.1 = "LONG")
      [(("SHORT" : String), (4 : ℚ)/5), ("LONG", 7/10), ("LONG", 3/5)] =
      [("LONG", 7/10), ("LONG", 3/5)] := rfl
  refine ⟨?_, ?_, ?_, by norm_num⟩
  · simp only [calculate_signal_strength, hchecks, hfst, hcL, hcS]
    norm_num
  · simp only [calculate_signal_strength, hchecks, hfst, hsnd, hcL, hcS]
    norm_num [htake, pyRound, roundHalfEven]
  · rw [hchecks, hfilter]
    norm_num [pyRound, roundHalfEven]

/-- Helper: rounding to an integer moves a value up by at most 1/2. -/
theorem roundHalfEven_le (y : ℚ) : (roundHalfEven y : ℚ) ≤ y + 1/2 := by
  have h1 : ((⌊y⌋ : ℤ) : ℚ) ≤ y := Int.floor_le y
  have h2 : y < ((⌊y⌋ : ℤ) : ℚ) + 1 := Int.lt_floor_add_one y
  simp only [roundHalfEven]
  split_ifs with ha hb hc <;> push_cast <;> linarith

/-- Helper: rounding to an integer moves a value down by at most 1/2. -/
theorem le_roundHalfEven (y : ℚ) : y - 1/2 ≤ (roundHalfEven y : ℚ) := by
  have h1 : ((⌊y⌋ : ℤ) : ℚ) ≤ y := Int.floor_le y
  have h2 : y < ((⌊y⌋ : ℤ) : ℚ) + 1 := Int.lt_floor_add_one y
  simp only [roundHalfEven]
  split_ifs with ha hb hc <;> push_cast <;> linarith

/-- Helper: pyRound moves a value up by at most half a quantum. -/
theorem pyRound_le (x : ℚ) (n : ℕ) : pyRound x n ≤ x + 1 / (2 * 10 ^ n) := by
  have hp : (0 : ℚ) < 10 ^ n := by positivity
  have h := roundHalfEven_le (x * 10 ^ n)
  unfold pyRound
  rw [div_le_iff₀ hp]
  have he : (x + 1 / (2 * 10 ^ n)) * 10 ^ n = x * 10 ^ n + 1/2 := by
    field_simp
    ring
  rw [he]
  exact h

/-- Helper: pyRound moves a value down by at most half a quantum. -/
theorem le_pyRound (x : ℚ) (n : ℕ) : x - 1 / (2 * 10 ^ n) ≤ pyRound x n := by
  have hp : (0 : ℚ) < 10 ^ n := by positivity
  have h := le_roundHalfEven (x * 10 ^ n)
  unfold pyRound
  rw [le_div_iff₀ hp]
  have he : (x - 1 / (2 * 10 ^ n)) * 10 ^ n = x * 10 ^ n - 1/2 := by
    field_simp
    ring
  rw [he]
  exact h

/-- Helper: the risk levels of a LONG signal on a snapshot with nonzero
price, in closed form. -/
theorem calculate_risk_levels_long (data : MarketData)
    (hne : data.price.current ≠ 0) (hatr : 0 < atr_est data) :
    calculate_risk_levels data "LONG" =
      { take_profit := pyRound (data.price.current + atr_est data * 2.5) 4,
        stop_loss := pyRound (data.price.current - atr_est data * 1.5) 4,
        risk_reward_ratio := pyRound ((atr_est data * 2.5) / (atr_est data * 1.5)) 2 } := by
  have h15 : (0 : ℚ) < atr_est data * 1.5 := by nlinarith
  have h25 : (0 : ℚ) < atr_est data * 2.5 := by nlinarith
  have e1 : data.price.current - (data.price.current - atr_est data * 1.5) =
      atr_est data * 1.5 := by ring
  have e2 : data.price.current + atr_est data * 2.5 - data.price.current =
      atr_est data * 2.5 := by ring
  simp only [calculate_risk_levels]
  rw [if_neg hne]
  norm_num [e1, e2, abs_of_pos h15, abs_of_pos h25, if_pos h15]
  rw [if_neg (ne_of_gt hatr)]
  rw [abs_of_pos (show (0:ℚ) < atr_est data * (5/2) by nlinarith),
      abs_of_pos (show (0:ℚ) < atr_est data * (3/2) by nlinarith)]

/-- Helper: the risk levels of a SHORT signal on a snapshot with nonzero
price, in closed form. -/
theorem calculate_risk_levels_short (data : MarketData)
    (hne : data.price.current ≠ 0) (hatr : 0 < atr_est data) :
    calculate_risk_levels data "SHORT" =
      { take_profit := pyRound (data.price.current - atr_est data * 2.5) 4,
        stop_loss := pyRound (data.price.current + atr_est data * 1.5) 4,
        risk_reward_ratio := pyRound ((atr_est data * 2.5) / (atr_est data * 1.5)) 2 } := by
  have e1 : data.price.current - (data.price.current + atr_est data * 1.5) =
      -(atr_est data * 1.5) := by ring
  have e2 : data.price.current - atr_est data * 2.5 - data.price.current =
      -(atr_est data * 2.5) := by ring
  simp only [calculate_risk_levels]
  rw [if_neg hne]
  rw [if_neg (show ¬ (("SHORT" : String) = "LONG") by decide)]
  simp only [if_true]
  norm_num [e1, e2]
  rw [if_neg (ne_of_gt hatr)]
  rw [abs_of_pos (show (0:ℚ) < atr_est data * (5/2) by nlinarith),
      abs_of_pos (show (0:ℚ) < atr_est data * (3/2) by nlinarith)]

/-- Helper: the risk levels of a NEUTRAL signal on a snapshot with nonzero
price. -/
theorem calculate_risk_levels_neutral (data : MarketData)
    (hne : data.price.current ≠ 0) :
    calculate_risk_levels data "NEUTRAL" =
      { take_profit := pyRound data.price.current 4,
        stop_loss := pyRound data.price.current 4,
        risk_reward_ratio := 0 } := by
  simp only [calculate_risk_levels]
  rw [if_neg hne]
  rw [if_neg (show ¬ (("NEUTRAL" : String) = "LONG") by decide),
      if_neg (show ¬ (("NEUTRAL" : String) = "SHORT") by decide)]
  norm_num [pyRound, roundHalfEven]

/-- C4 (amended): with positive price, the LONG stop-loss and take-profit
are price - 1.5*range and price + 2.5*range rounded to 4 decimals, the
risk/reward ratio is (2.5*range)/(1.5*range) rounded to 2 decimals, and the
strict ordering stop-loss < price < take-profit holds whenever the range is
at least 1/10000 (one rounding quantum); SHORT is the mirror image; NEUTRAL
pins both levels at the price rounded to 4 decimals with ratio 0 (zero risk
distance). -/
theorem C4_risk_levels (data : MarketData) (hp : 0 < data.price.current) :
    0 < atr_est data ∧
    (calculate_risk_levels data "LONG").stop_loss =
      pyRound (data.price.current - atr_est data * 1.5) 4 ∧
    (calculate_risk_levels data "LONG").take_profit =
      pyRound (data.price.current + atr_est data * 2.5) 4 ∧
    (calculate_risk_levels data "LONG").risk_reward_ratio =
      pyRound ((atr_est data * 2.5) / (atr_est data * 1.5)) 2 ∧
    (1/10000 ≤ atr_est data →
      (calculate_risk_levels data "LONG").stop_loss < data.price.current ∧
      data.price.current < (calculate_risk_levels data "LONG").take_profit) ∧
    (calculate_risk_levels data "SHORT").stop_loss =
      pyRound (data.price.current + atr_est data * 1.5) 4 ∧
    (calculate_risk_levels data "SHORT").take_profit =
      pyRound (data.price.current - atr_est data * 2.5) 4 ∧
    (1/10000 ≤ atr_est data →
      (calculate_risk_levels data "SHORT").take_profit < data.price.current ∧
      data.price.current < (calculate_risk_levels data "SHORT").stop_loss) ∧
    (calculate_risk_levels data "NEUTRAL").take_profit = pyRound data.price.current 4 ∧
    (calculate_risk_levels data "NEUTRAL").stop_loss = pyRound data.price.current 4 ∧
    (calculate_risk_levels data "NEUTRAL").risk_reward_ratio = 0 := by
  have hne : data.price.current ≠ 0 := ne_of_gt hp
  have hatr : 0 < atr_est data := by
    simp only [atr_est]
    split_ifs with h
    · nlinarith
    · rcases lt_or_eq_of_le (abs_nonneg (data.price.high - data.price.low)) with h2 | h2
      · exact h2
      · exact absurd h2.symm h
  have hL := calculate_risk_levels_long data hne hatr
  have hS := calculate_risk_levels_short data hne hatr
  have hN := calculate_risk_levels_neutral data hne
  refine ⟨hatr, by rw [hL], by rw [hL], by rw [hL], ?_, by rw [hS], by rw [hS], ?_,
    by rw [hN], by rw [hN], by rw [hN]⟩
  · intro hq
    rw [hL]
    constructor
    · have h1 := pyRound_le (data.price.current - atr_est data * 1.5) 4
      have : (1 : ℚ) / (2 * 10 ^ 4) = 1/20000 := by norm_num
      rw [this] at h1
      simp only []
      linarith
    · have h1 := le_pyRound (data.price.current + atr_est data * 2.5) 4
      have : (1 : ℚ) / (2 * 10 ^ 4) = 1/20000 := by norm_num
      rw [this] at h1
      simp only []
      linarith
  · intro hq
    rw [hS]
    constructor
    · have h1 := pyRound_le (data.price.current - atr_est data * 2.5) 4
      have : (1 : ℚ) / (2 * 10 ^ 4) = 1/20000 := by norm_num
      rw [this] at h1
      simp only []
      linarith
    · have h1 := le_pyRound (data.price.current + atr_est data * 1.5) 4
      have : (1 : ℚ) / (2 * 10 ^ 4) = 1/20000 := by norm_num
      rw [this] at h1
      simp only []
      linarith

/-- C4 witness: at price 100 with 24h range 98 to 102 the LONG levels
bracket the price. -/
theorem C4_risk_levels_witness :
    0 < c4Data.price.current ∧
    (1/10000 ≤ atr_est c4Data →
      (calculate_risk_levels c4Data "LONG").stop_loss < c4Data.price.current ∧
      c4Data.price.current < (calculate_risk_levels c4Data "LONG").take_profit) :=
  ⟨by norm_num [c4Data], (C4_risk_levels c4Data (by norm_num [c4Data])).2.2.2.2.1⟩

/-- C4 counterexample: at the positive price 1/100000 the rounding to 4
decimal places collapses both levels to 0, so the claimed strict ordering
stop-loss < price < take-profit fails for a LONG signal. -/
theorem C4_ordering_fails_at_tiny_price :
    0 < c4TinyData.price.current ∧
    ¬ ((calculate_risk_levels c4TinyData "LONG").stop_loss < c4TinyData.price.current ∧
       c4TinyData.price.current < (calculate_risk_levels c4TinyData "LONG").take_profit) := by
  constructor
  · norm_num [c4TinyData]
  · have h : calculate_risk_levels c4TinyData "LONG" =
        { take_profit := 0, stop_loss := 0, risk_reward_ratio := 167/100 } := by
      have hc : calculate_risk_levels c4TinyData "LONG" =
          { take_profit := pyRound (c4TinyData.price.current + atr_est c4TinyData * 2.5) 4,
            stop_loss := pyRound (c4TinyData.price.current - atr_est c4TinyData * 1.5) 4,
            risk_reward_ratio :=
              pyRound ((atr_est c4TinyData * 2.5) / (atr_est c4TinyData * 1.5)) 2 } :=
        calculate_risk_levels_long c4TinyData (by norm_num [c4TinyData])
          (by norm_num [atr_est, c4TinyData])
      rw [hc]
      have ha : atr_est c4TinyData = 1/5000000 := by norm_num [atr_est, c4TinyData]
      rw [ha]
      norm_num [c4TinyData, pyRound, roundHalfEven]
    rw [h]
    norm_num [c4TinyData]

/-- Helper: the sum of a constant list. -/
theorem sum_of_allEq {l : List ℚ} {c : ℚ} (h : ∀ x ∈ l, x = c) :
    l.sum = l.length * c := by
  induction l with
  | nil => simp
  | cons a t ih =>
    have ha := h a (by simp)
    have ht : ∀ x ∈ t, x = c := fun x hx => h x (by simp [hx])
    rw [List.sum_cons, ih ht, ha, List.length_cons]
    push_cast
    ring

/-- Helper: the mean of a nonempty constant list. -/
theorem mean_of_allEq {l : List ℚ} {c : ℚ} (h : ∀ x ∈ l, x = c)
    (hne : l.length ≠ 0) : l.sum / (l.length : ℚ) = c := by
  have hq : (l.length : ℚ) ≠ 0 := Nat.cast_ne_zero.mpr hne
  rw [sum_of_allEq h]
  field_simp

/-- Helper: the EMA recursion fixes the flat value. -/
theorem foldl_ema_const (l : List ℚ) (m c : ℚ) (h : ∀ x ∈ l, x = c) :
    l.foldl (fun ema price => price * m + ema * (1 - m)) c = c := by
  induction l with
  | nil => rfl
  | cons a t ih =>
    have ha := h a (by simp)
    have ht : ∀ x ∈ t, x = c := fun x hx => h x (by simp [hx])
    rw [List.foldl_cons, ha, show c * m + c * (1 - m) = c by ring]
    exact ih ht

/-- Helper: the EMA of a constant list with enough data is the flat value
rounded to 4 decimals. -/
theorem calculate_ema_allEq (l : List ℚ) (c : ℚ) (n : ℕ) (h : ∀ x ∈ l, x = c)
    (hn : n ≠ 0) (hle : n ≤ l.length) : calculate_ema l n = pyRound c 4 := by
  have htake : ∀ x ∈ l.take n, x = c := fun x hx => h x (List.take_subset n l hx)
  have hlen : (l.take n).length = n := by
    rw [List.length_take]
    omega
  have hema0 : (l.take n).sum / (n : ℚ) = c := by
    rw [sum_of_allEq htake, hlen]
    have hq : (n : ℚ) ≠ 0 := Nat.cast_ne_zero.mpr hn
    field_simp
  have hdrop : ∀ x ∈ l.drop n, x = c := fun x hx => h x (List.drop_subset n l hx)
  simp only [calculate_ema]
  rw [if_neg (by omega)]
  rw [hema0, foldl_ema_const _ _ _ hdrop]

/-- Helper: the RSI of a constant list with at least 15 entries takes the
zero-average-loss branch and returns 100. -/
theorem calculate_rsi_allEq (l : List ℚ) (c : ℚ) (h : ∀ x ∈ l, x = c)
    (hlen : 15 ≤ l.length) : calculate_rsi l 14 = 100 := by
  have hd : ∀ x ∈ (l.zip (l.drop 1)).map (fun p => p.2 - p.1), x = 0 := by
    intro x hx
    simp only [List.mem_map] at hx
    obtain ⟨⟨a, b⟩, hab, rfl⟩ := hx
    have hm := List.of_mem_zip hab
    have ha := h a hm.1
    have hb := h b (List.drop_subset 1 l hm.2)
    simp [ha, hb]
  have hl : ∀ x ∈ ((l.zip (l.drop 1)).map (fun p => p.2 - p.1)).map
      (fun d => if d < 0 then -d else 0), x = 0 := by
    intro x hx
    simp only [List.mem_map] at hx
    obtain ⟨d, hdm, rfl⟩ := hx
    rw [hd d (List.mem_map.mpr hdm)]
    norm_num
  have hlast : ∀ x ∈ lastN (((l.zip (l.drop 1)).map (fun p => p.2 - p.1)).map
      (fun d => if d < 0 then -d else 0)) 14, x = 0 :=
    fun x hx => hl x (List.drop_subset _ _ hx)
  have key : (lastN (((l.zip (l.drop 1)).map (fun p => p.2 - p.1)).map
      (fun d => if d < 0 then -d else 0)) 14).sum / ((14 : ℕ) : ℚ) = 0 := by
    rw [sum_of_allEq hlast]
    simp
  simp only [calculate_rsi]
  rw [if_neg (by omega)]
  simp only [key]
  norm_num

/-- Helper: the MACD of a constant list with at least 50 entries is all
zero. -/
theorem calculate_macd_allEq (l : List ℚ) (c : ℚ) (h : ∀ x ∈ l, x = c)
    (hlen : 50 ≤ l.length) : calculate_macd l = (0, 0, 0) := by
  have h12 := calculate_ema_allEq l c 12 h (by norm_num) (by omega)
  have h26 := calculate_ema_allEq l c 26 h (by norm_num) (by omega)
  have hvals : ∀ x ∈ (List.range (l.length - 26)).map (fun j =>
      calculate_ema (l.take (26 + j + 1)) 12 - calculate_ema (l.take (26 + j + 1)) 26),
      x = 0 := by
    intro x hx
    simp only [List.mem_map, List.mem_range] at hx
    obtain ⟨j, hj, rfl⟩ := hx
    have htake : ∀ y ∈ l.take (26 + j + 1), y = c :=
      fun y hy => h y (List.take_subset _ _ hy)
    have hlt : 12 ≤ (l.take (26 + j + 1)).length := by
      rw [List.length_take]
      omega
    have hlt2 : 26 ≤ (l.take (26 + j + 1)).length := by
      rw [List.length_take]
      omega
    rw [calculate_ema_allEq _ c 12 htake (by norm_num) hlt,
        calculate_ema_allEq _ c 26 htake (by norm_num) hlt2]
    ring
  have hvlen : 9 ≤ ((List.range (l.length - 26)).map (fun j =>
      calculate_ema (l.take (26 + j + 1)) 12 - calculate_ema (l.take (26 + j + 1)) 26)).length := by
    rw [List.length_map, List.length_range]
    omega
  have hsig : calculate_ema ((List.range (l.length - 26)).map (fun j =>
      calculate_ema (l.take (26 + j + 1)) 12 - calculate_ema (l.take (26 + j + 1)) 26)) 9 =
      pyRound 0 4 :=
    calculate_ema_allEq _ 0 9 hvals (by norm_num) hvlen
  have hp4 : pyRound 0 4 = 0 := by norm_num [pyRound, roundHalfEven]
  have hp6 : pyRound 0 6 = 0 := by norm_num [pyRound, roundHalfEven]
  simp only [calculate_macd]
  rw [if_neg (by omega)]
  rw [if_pos hvlen]
  simp only [h12, h26, hsig, hp4, sub_self, sub_zero, hp6]

/-- Helper: the Bollinger bands of a constant list with at least 20 entries
collapse to the flat value rounded to 4 decimals (the variance is zero, so
only the square root at zero matters). -/
theorem calculate_bollinger_allEq (sqrtF : ℚ → ℚ) (l : List ℚ) (c : ℚ)
    (h : ∀ x ∈ l, x = c) (hs : sqrtF 0 = 0) (hlen : 20 ≤ l.length) :
    calculate_bollinger_bands sqrtF l 20 2 = (pyRound c 4, pyRound c 4, pyRound c 4) := by
  have hlast : ∀ x ∈ lastN l 20, x = c := fun x hx => h x (List.drop_subset _ _ hx)
  have hlastlen : (lastN l 20).length = 20 := by
    simp only [lastN, List.length_drop]
    omega
  have hsma : (lastN l 20).sum / ((20 : ℕ) : ℚ) = c := by
    rw [sum_of_allEq hlast, hlastlen]
    norm_num
  have hvar : ((lastN l 20).map (fun price => (price - c) ^ 2)).sum / ((20 : ℕ) : ℚ) = 0 := by
    have hz : ∀ x ∈ (lastN l 20).map (fun price => (price - c) ^ 2), x = 0 := by
      intro x hx
      simp only [List.mem_map] at hx
      obtain ⟨p, hp, rfl⟩ := hx
      rw [hlast p hp]
      ring
    rw [sum_of_allEq hz]
    simp
  simp only [calculate_bollinger_bands]
  rw [if_neg (by omega)]
  simp only [hsma, hvar, hs]
  norm_num

/-- Helper: the trend strength of a constant list with at least 20 entries
is 50. -/
theorem calculate_trend_strength_allEq (l : List ℚ) (c : ℚ)
    (h : ∀ x ∈ l, x = c) (hlen : 20 ≤ l.length) :
    calculate_trend_strength l = 50 := by
  have hr10 : ∀ x ∈ lastN l 10, x = c := fun x hx => h x (List.drop_subset _ _ hx)
  have hr10len : (lastN l 10).length = 10 := by
    simp only [lastN, List.length_drop]
    omega
  have ho10 : ∀ x ∈ (lastN l 20).take 10, x = c :=
    fun x hx => h x (List.drop_subset _ _ (List.take_subset _ _ hx))
  have ho10len : ((lastN l 20).take 10).length = 10 := by
    simp only [lastN, List.length_take, List.length_drop]
    omega
  have hrm : (lastN l 10).sum / (((lastN l 10).length : ℕ) : ℚ) = c :=
    mean_of_allEq hr10 (by omega)
  have hom : ((lastN l 20).take 10).sum / ((((lastN l 20).take 10).length : ℕ) : ℚ) = c :=
    mean_of_allEq ho10 (by omega)
  simp only [calculate_trend_strength]
  rw [if_neg (by omega)]
  rw [hrm, hom]
  norm_num [pyRound, roundHalfEven]

/-- Helper: on a flat series of at least 50 candles the indicator engine
yields zero MACD values, Bollinger bands at the rounded flat price, and
RSI 100. -/
theorem flat_indicators (sqrtF : ℚ → ℚ) (klines : List Kline) (c : ℚ)
    (hs : sqrtF 0 = 0) (hlen : 50 ≤ klines.length) (hc : ∀ k ∈ klines, k.close = c) :
    (calculate_technical_indicators sqrtF klines).macd = 0 ∧
    (calculate_technical_indicators sqrtF klines).macd_signal = 0 ∧
    (calculate_technical_indicators sqrtF klines).macd_histogram = 0 ∧
    (calculate_technical_indicators sqrtF klines).bb_upper = pyRound c 4 ∧
    (calculate_technical_indicators sqrtF klines).bb_middle = pyRound c 4 ∧
    (calculate_technical_indicators sqrtF klines).bb_lower = pyRound c 4 ∧
    (calculate_technical_indicators sqrtF klines).rsi = 100 := by
  have hcl : ∀ x ∈ klines.map Kline.close, x = c := by
    intro x hx
    simp only [List.mem_map] at hx
    obtain ⟨k, hk, rfl⟩ := hx
    exact hc k hk
  have hcll : (klines.map Kline.close).length = klines.length := List.length_map _ _
  have hmacd := calculate_macd_allEq (klines.map Kline.close) c hcl (by omega)
  have hbb := calculate_bollinger_allEq sqrtF (klines.map Kline.close) c hcl hs (by omega)
  have hrsi := calculate_rsi_allEq (klines.map Kline.close) c hcl (by omega)
  simp only [calculate_technical_indicators]
  rw [if_neg (by omega)]
  refine ⟨?_, ?_, ?_, ?_, ?_, ?_, ?_⟩ <;> simp [hmacd, hbb, hrsi]

/-- C5 (amended): for every flat candle series (all closes equal to c) of
at least 50 bars, MACD line = signal = histogram = 0 and RSI = 100 via the
zero-average-loss branch; the three Bollinger bands all equal c rounded to
4 decimal places (hence equal c exactly whenever c has at most 4 decimals),
for any square root function with sqrtF 0 = 0. -/
theorem C5_flat_series (sqrtF : ℚ → ℚ) (klines : List Kline) (c : ℚ)
    (hs : sqrtF 0 = 0) (hlen : 50 ≤ klines.length) (hc : ∀ k ∈ klines, k.close = c) :
    (calculate_technical_indicators sqrtF klines).macd = 0 ∧
    (calculate_technical_indicators sqrtF klines).macd_signal = 0 ∧
    (calculate_technical_indicators sqrtF klines).macd_histogram = 0 ∧
    (calculate_technical_indicators sqrtF klines).bb_upper = pyRound c 4 ∧
    (calculate_technical_indicators sqrtF klines).bb_middle = pyRound c 4 ∧
    (calculate_technical_indicators sqrtF klines).bb_lower = pyRound c 4 ∧
    (calculate_technical_indicators sqrtF klines).rsi = 100 :=
  flat_indicators sqrtF klines c hs hlen hc

/-- C5 witness: 50 flat candles at price 1. -/
theorem C5_flat_series_witness :
    (calculate_technical_indicators (fun _ => 0) (List.replicate 50 flatKline1)).macd = 0 ∧
    (calculate_technical_indicators (fun _ => 0) (List.replicate 50 flatKline1)).macd_signal = 0 ∧
    (calculate_technical_indicators (fun _ => 0) (List.replicate 50 flatKline1)).macd_histogram = 0 ∧
    (calculate_technical_indicators (fun _ => 0) (List.replicate 50 flatKline1)).bb_upper =
      pyRound 1 4 ∧
    (calculate_technical_indicators (fun _ => 0) (List.replicate 50 flatKline1)).bb_middle =
      pyRound 1 4 ∧
    (calculate_technical_indicators (fun _ => 0) (List.replicate 50 flatKline1)).bb_lower =
      pyRound 1 4 ∧
    (calculate_technical_indicators (fun _ => 0) (List.replicate 50 flatKline1)).rsi = 100 :=
  C5_flat_series (fun _ => 0) (List.replicate 50 flatKline1) 1 rfl (by simp)
    (fun k hk => by rw [List.eq_of_mem_replicate hk]; rfl)

/-- C5 counterexample: on the flat series at price 3/25000 = 0.00012 the
Bollinger middle band is round(0.00012, 4) = 0.0001, not the flat close
price, so the bands do not equal the flat price exactly. -/
theorem C5_bands_rounded_not_exact :
    50 ≤ (List.replicate 50 c5Flat).length ∧
    (∀ k ∈ List.replicate 50 c5Flat, k.close = 3/25000) ∧
    (calculate_technical_indicators (fun _ => 0) (List.replicate 50 c5Flat)).bb_middle ≠
      3/25000 := by
  have hc : ∀ k ∈ List.replicate 50 c5Flat, k.close = 3/25000 :=
    fun k hk => by rw [List.eq_of_mem_replicate hk]; rfl
  refine ⟨by simp, hc, ?_⟩
  have h := (flat_indicators (fun _ => 0) (List.replicate 50 c5Flat) (3/25000) rfl
    (by simp) hc).2.2.2.2.1
  rw [h]
  norm_num [pyRound, roundHalfEven]

/-- Helper: the mock-kline walk produces one candle per index. -/
theorem mock_klines_go_length (env : NetEnv) (count : ℕ) (l : List ℕ) (q : ℚ) :
    (mock_klines_go env count l q).length = l.length := by
  induction l generalizing q with
  | nil => rfl
  | cons i rest ih => simp [mock_klines_go, ih]

/-- Helper: generate_mock_klines yields exactly count candles. -/
theorem generate_mock_klines_length (env : NetEnv) (p : ℚ) (count : ℕ) :
    (generate_mock_klines env p count).length = count := by
  simp [generate_mock_klines, mock_klines_go_length]

/-- C8: get_market_data is a total function of its environment: when both
the ticker fetch and the CoinGecko fallback fail it returns exactly the
synthetic snapshot; the fallback is skipped for symbols absent from the
static map; the synthetic price is the static base price (1000 for unknown
symbols) times a pseudo-variation derived from hash(symbol + timeframe);
the synthetic indicators are computed over a 100-candle synthetic series;
when the primary ticker succeeds its price is used, and when only the
fallback succeeds its price is used. -/
theorem C8_gateway_fallback (env : NetEnv) (sqrtF : ℚ → ℚ) (symbol timeframe : String) :
    (env.ticker = none → get_coingecko_price env symbol = none →
      get_market_data env sqrtF symbol timeframe =
        generate_mock_data env sqrtF symbol timeframe) ∧
    (coingecko_symbol_map.lookup symbol = none → get_coingecko_price env symbol = none) ∧
    ((generate_mock_data env sqrtF symbol timeframe).price.current =
      ((base_prices.lookup symbol).getD 1000) *
        (0.9 + 0.2 * (((env.hashStr (symbol ++ timeframe)).emod 100 : ℤ) : ℚ) / 100)) ∧
    (base_prices.lookup symbol = none →
      (generate_mock_data env sqrtF symbol timeframe).price.current =
        1000 * (0.9 + 0.2 * (((env.hashStr (symbol ++ timeframe)).emod 100 : ℤ) : ℚ) / 100)) ∧
    ((generate_mock_data env sqrtF symbol timeframe).indicators =
      calculate_technical_indicators sqrtF
        (generate_mock_klines env
          (((base_prices.lookup symbol).getD 1000) *
            (0.9 + 0.2 * (((env.hashStr (symbol ++ timeframe)).emod 100 : ℤ) : ℚ) / 100)) 100)) ∧
    (∀ p : ℚ, (generate_mock_klines env p 100).length = 100) ∧
    (∀ t : TickerData, env.ticker = some t →
      (get_market_data env sqrtF symbol timeframe).price.current = t.lastPrice) ∧
    (∀ g : GeckoData, env.ticker = none → get_coingecko_price env symbol = some g →
      (get_market_data env sqrtF symbol timeframe).price.current = g.current_price) := by
  refine ⟨?_, ?_, ?_, ?_, ?_, ?_, ?_, ?_⟩
  · intro ht hg
    simp [get_market_data, ht, hg]
  · intro hm
    simp [get_coingecko_price, hm]
  · simp [generate_mock_data]
  · intro hb
    simp [generate_mock_data, hb]
  · simp [generate_mock_data]
  · intro p
    exact generate_mock_klines_length env p 100
  · intro t ht
    cases hk : env.klines <;> simp [get_market_data, ht, hk]
  · intro g ht hg
    cases hk : env.klines <;> simp [get_market_data, ht, hg, hk]

end Crypto
